import Mathlib

/-!
Verification of the transport-facing core of the azure-iot-device preview SDK:
the error taxonomy and mappers (common/error_map.py, common/error_map_paho.py,
common/errors.py, common/errors_paho.py), the dual-context dispatcher
(common/pipeline/pipeline_thread.py) and the MQTT protocol stage
(common/pipeline/pipeline_stages_mqtt.py), embedded shallowly in Lean.
Python dictionaries become lookup functions, Python classes become inductive
tags, Python exceptions become explicit error values, and the stage's mutable
attributes become an explicit state record threaded through each handler.
-/

namespace AzureIoT

/-! ## Error taxonomy: common/errors.py and common/errors_paho.py

Each Python exception class defined in errors.py becomes one tag of
ErrorClass; each class of errors_paho.py becomes one tag of PahoErrorClass.
An instance of such a class carries an optional message (the single
constructor argument, None when the class is raised bare) and, for generic
errors, an optional causal parent set by a raise-from. -/

/-- The generic error classes defined in common/errors.py. -/
inductive ErrorClass where
  | OperationCancelledError
  | ConnectionFailedError
  | ConnectionDroppedError
  | ArgumentError
  | UnauthorizedError
  | QuotaExceededError
  | NotFoundError
  | DeviceTimeoutError
  | DeviceAlreadyExistsError
  | InvalidEtagError
  | MessageTooLargeError
  | ThrottlingError
  | InternalServiceError
  | BadDeviceResponseError
  | ServiceUnavailableError
  | TimeoutError
  | FailedStatusCodeError
  | TransportError
  | PipelineError
deriving DecidableEq, Repr, Fintype

/-- The Paho-specific error classes defined in common/errors_paho.py. -/
inductive PahoErrorClass where
  | PahoConnectionRefusedProtocolVersionError
  | PahoConnectionRefusedIdentifierRejectedError
  | PahoConnectionRefusedServerUnavailableError
  | PahoConnectionRefusedBadUsernamePasswordError
  | PahoConnectionRefusedNotAuthorizedError
  | PahoNoMemoryError
  | PahoProtocolError
  | PahoInvalidArgsError
  | PahoNoConnectionError
  | PahoConnectionRefusedError
  | PahoNotFoundError
  | PahoConnectionLostError
  | PahoTLSError
  | PahoPayloadSizeError
  | PahoNotSupportedError
  | PahoAuthError
  | PahoACLDeniedError
  | PahoUnknownError
  | PahoQueueSizeError
deriving DecidableEq, Repr, Fintype

/-- An instance of a Paho-specific error class: the class plus the message it
was constructed with (None when constructed with no argument). -/
structure PahoError where
  cls : PahoErrorClass
  message : Option String
deriving DecidableEq, Repr

/-- An instance of a generic error class from errors.py: the class, the
message it was constructed with, and the causal parent installed by a
Python raise-from (the dunder-cause attribute). -/
structure GenericError where
  cls : ErrorClass
  message : Option String
  cause : Option PahoError
deriving DecidableEq, Repr

/-! ## common/error_map.py -/

/-- The status_code_to_error dictionary of error_map.py, as a lookup
function: some cls when the status code is a key of the dictionary. -/
def status_code_to_error (status_code : Nat) : Option ErrorClass :=
  if status_code = 400 then some .ArgumentError
  else if status_code = 401 then some .UnauthorizedError
  else if status_code = 403 then some .QuotaExceededError
  else if status_code = 404 then some .NotFoundError
  else if status_code = 408 then some .DeviceTimeoutError
  else if status_code = 409 then some .DeviceAlreadyExistsError
  else if status_code = 412 then some .InvalidEtagError
  else if status_code = 413 then some .MessageTooLargeError
  else if status_code = 429 then some .ThrottlingError
  else if status_code = 500 then some .InternalServiceError
  else if status_code = 502 then some .BadDeviceResponseError
  else if status_code = 503 then some .ServiceUnavailableError
  else if status_code = 504 then some .TimeoutError
  else none

/-- error_map.error_from_status_code: if the status code is in the
dictionary, construct that class with the message; otherwise construct
FailedStatusCodeError with the message. No cause is attached. -/
def error_from_status_code (status_code : Nat) (message : Option String) :
    GenericError :=
  match status_code_to_error status_code with
  | some cls => { cls := cls, message := message, cause := none }
  | none => { cls := .FailedStatusCodeError, message := message, cause := none }

/-! ## common/error_map_paho.py

The paho.mqtt.client rc constants are values of the external Paho library
(CONNACK_REFUSED_x and MQTT_ERR_x); conack_string and error_string are the
library's code-to-description functions, taken as parameters since their
text is owned by the library, not by this repository. -/

def CONNACK_REFUSED_PROTOCOL_VERSION : Int := 1
def CONNACK_REFUSED_IDENTIFIER_REJECTED : Int := 2
def CONNACK_REFUSED_SERVER_UNAVAILABLE : Int := 3
def CONNACK_REFUSED_BAD_USERNAME_PASSWORD : Int := 4
def CONNACK_REFUSED_NOT_AUTHORIZED : Int := 5

def MQTT_ERR_NOMEM : Int := 1
def MQTT_ERR_PROTOCOL : Int := 2
def MQTT_ERR_INVAL : Int := 3
def MQTT_ERR_NO_CONN : Int := 4
def MQTT_ERR_CONN_REFUSED : Int := 5
def MQTT_ERR_NOT_FOUND : Int := 6
def MQTT_ERR_CONN_LOST : Int := 7
def MQTT_ERR_TLS : Int := 8
def MQTT_ERR_PAYLOAD_SIZE : Int := 9
def MQTT_ERR_NOT_SUPPORTED : Int := 10
def MQTT_ERR_AUTH : Int := 11
def MQTT_ERR_ACL_DENIED : Int := 12
def MQTT_ERR_UNKNOWN : Int := 13
def MQTT_ERR_ERRNO : Int := 14
def MQTT_ERR_QUEUE_SIZE : Int := 15

/-- The paho_conack_rc_to_error dictionary: Paho conack rc code to the
Paho-specific error class. -/
def paho_conack_rc_to_error (rc : Int) : Option PahoErrorClass :=
  if rc = CONNACK_REFUSED_PROTOCOL_VERSION then
    some .PahoConnectionRefusedProtocolVersionError
  else if rc = CONNACK_REFUSED_IDENTIFIER_REJECTED then
    some .PahoConnectionRefusedIdentifierRejectedError
  else if rc = CONNACK_REFUSED_SERVER_UNAVAILABLE then
    some .PahoConnectionRefusedServerUnavailableError
  else if rc = CONNACK_REFUSED_BAD_USERNAME_PASSWORD then
    some .PahoConnectionRefusedBadUsernamePasswordError
  else if rc = CONNACK_REFUSED_NOT_AUTHORIZED then
    some .PahoConnectionRefusedNotAuthorizedError
  else none

/-- The paho_rc_to_error dictionary: Paho rc code to the Paho-specific
error class. -/
def paho_rc_to_error (rc : Int) : Option PahoErrorClass :=
  if rc = MQTT_ERR_NOMEM then some .PahoNoMemoryError
  else if rc = MQTT_ERR_PROTOCOL then some .PahoProtocolError
  else if rc = MQTT_ERR_INVAL then some .PahoInvalidArgsError
  else if rc = MQTT_ERR_NO_CONN then some .PahoNoConnectionError
  else if rc = MQTT_ERR_CONN_REFUSED then some .PahoConnectionRefusedError
  else if rc = MQTT_ERR_NOT_FOUND then some .PahoNotFoundError
  else if rc = MQTT_ERR_CONN_LOST then some .PahoConnectionLostError
  else if rc = MQTT_ERR_TLS then some .PahoTLSError
  else if rc = MQTT_ERR_PAYLOAD_SIZE then some .PahoPayloadSizeError
  else if rc = MQTT_ERR_NOT_SUPPORTED then some .PahoNotSupportedError
  else if rc = MQTT_ERR_AUTH then some .PahoAuthError
  else if rc = MQTT_ERR_ACL_DENIED then some .PahoACLDeniedError
  else if rc = MQTT_ERR_UNKNOWN then some .PahoUnknownError
  else if rc = MQTT_ERR_ERRNO then some .PahoUnknownError
  else if rc = MQTT_ERR_QUEUE_SIZE then some .PahoQueueSizeError
  else none

/-- The paho_error_to_generic_error dictionary: Paho-specific error class to
generic error class. Every Paho class is a key of the source dictionary, so
the lookup is total here; the function returns an Option to mirror the
source's membership test, with some for every class. -/
def paho_error_to_generic_error (cls : PahoErrorClass) : Option ErrorClass :=
  match cls with
  | .PahoConnectionRefusedProtocolVersionError => some .TransportError
  | .PahoConnectionRefusedIdentifierRejectedError => some .TransportError
  | .PahoConnectionRefusedServerUnavailableError => some .ConnectionFailedError
  | .PahoConnectionRefusedBadUsernamePasswordError => some .UnauthorizedError
  | .PahoConnectionRefusedNotAuthorizedError => some .UnauthorizedError
  | .PahoNoMemoryError => some .TransportError
  | .PahoProtocolError => some .TransportError
  | .PahoInvalidArgsError => some .TransportError
  | .PahoNoConnectionError => some .ConnectionDroppedError
  | .PahoConnectionRefusedError => some .UnauthorizedError
  | .PahoNotFoundError => some .TransportError
  | .PahoConnectionLostError => some .ConnectionDroppedError
  | .PahoTLSError => some .UnauthorizedError
  | .PahoPayloadSizeError => some .TransportError
  | .PahoNotSupportedError => some .TransportError
  | .PahoAuthError => some .UnauthorizedError
  | .PahoACLDeniedError => some .UnauthorizedError
  | .PahoUnknownError => some .TransportError
  | .PahoQueueSizeError => some .TransportError

/-- error_map_paho's wrapper (the underscore-prefixed
wrap_paho_error_in_generic_error): pick the generic class for the Paho
error's class, defaulting to TransportError; then raise the generic CLASS
from the Paho error and return the caught instance. Raising a class
instantiates it with no arguments, so the returned generic error has no
message of its own; the raise-from installs the Paho error as its cause. -/
def wrap_paho_error_in_generic_error (paho_error : PahoError) : GenericError :=
  let generic_error : ErrorClass :=
    match paho_error_to_generic_error paho_error.cls with
    | some cls => cls
    | none => .TransportError
  { cls := generic_error, message := none, cause := some paho_error }

/-- error_map_paho.create_error_from_conack_rc_code: build the Paho-specific
error for the conack rc code (the class from the dictionary, or
PahoUnknownError for an unmapped code) carrying the library's
conack_string description, then wrap it in a generic error. -/
def create_error_from_conack_rc_code (conack_string : Int → String)
    (conack_rc_code : Int) : GenericError :=
  let message := conack_string conack_rc_code
  let paho_error : PahoError :=
    match paho_conack_rc_to_error conack_rc_code with
    | some cls => { cls := cls, message := some message }
    | none => { cls := .PahoUnknownError, message := some message }
  wrap_paho_error_in_generic_error paho_error

/-- error_map_paho.create_error_from_rc_code: build the Paho-specific error
for the rc code (the class from the dictionary, or PahoUnknownError for an
unmapped code) carrying the library's error_string description, then wrap
it in a generic error. -/
def create_error_from_rc_code (error_string : Int → String)
    (rc : Int) : GenericError :=
  let message := error_string rc
  let paho_error : PahoError :=
    match paho_rc_to_error rc with
    | some cls => { cls := cls, message := some message }
    | none => { cls := .PahoUnknownError, message := some message }
  wrap_paho_error_in_generic_error paho_error

/-! ## Dual-context dispatcher: common/pipeline/pipeline_thread.py

The two named single-worker executors are identified by the order in which
ThreadPoolExecutor instances are constructed: each construction yields a
fresh identity (a Nat). The function attributes that the source stores the
executors on (getattr and setattr on the function object itself, keyed by
the thread name) become two Option fields of an ExecutorStore record. -/

/-- The two thread names used by pipeline_thread.py. -/
inductive ThreadName where
  | pipeline
  | callback
deriving DecidableEq, Repr

/-- The process-wide state behind pipeline_thread's lazily created executors:
the attribute slot for each thread name (none while no executor has been
assigned to that name) and a counter supplying the identity of the next
ThreadPoolExecutor construction. -/
structure ExecutorStore where
  pipeline_attr : Option Nat
  callback_attr : Option Nat
  next_executor_id : Nat
deriving DecidableEq, Repr

/-- The store before any executor has been created. -/
def emptyExecutorStore : ExecutorStore :=
  { pipeline_attr := none, callback_attr := none, next_executor_id := 0 }

/-- The getattr default-None read that opens pipeline_thread's
underscore-prefixed get_named_executor. -/
def executorAttr (st : ExecutorStore) (thread_name : ThreadName) : Option Nat :=
  match thread_name with
  | .pipeline => st.pipeline_attr
  | .callback => st.callback_attr

/-- The setattr that stores an executor under a thread name. -/
def setExecutorAttr (st : ExecutorStore) (thread_name : ThreadName)
    (e : Nat) : ExecutorStore :=
  match thread_name with
  | .pipeline => { st with pipeline_attr := some e }
  | .callback => { st with callback_attr := some e }

/-- pipeline_thread's underscore-prefixed get_named_executor. Faithful to
the source: when the attribute is unset the local variable executor is
bound to one freshly constructed ThreadPoolExecutor, but the setattr line
constructs a SECOND ThreadPoolExecutor and stores that one, and the local
(first) executor is returned. So the executor returned by the first call
for a name is not the executor stored, hence not the one every later call
returns. -/
def get_named_executor (st : ExecutorStore) (thread_name : ThreadName) :
    Nat × ExecutorStore :=
  match executorAttr st thread_name with
  | some executor => (executor, st)
  | none =>
    let executor := st.next_executor_id
    let second := st.next_executor_id + 1
    let st := { st with next_executor_id := st.next_executor_id + 2 }
    (executor, setExecutorAttr st thread_name second)

/-- A Python exception value, as it flows through the dispatcher and the
protocol stage. attributeError names the attribute whose read failed (also
used for the missing list method add); pipelineSupersededError stands for
the PipelineError built by the cancellation helper; sessionError tags an
otherwise arbitrary error raised by, or delivered from, the protocol
session. -/
inductive PyErr where
  | attributeError (attr : String)
  | pipelineSupersededError
  | sessionError (tag : Nat)
deriving DecidableEq, Repr

/-- Where and how the function wrapped by the underscore-prefixed
invoke_on_executor_thread decorator ran, and what its caller got back.
ranOnExecutor carries the executor the closure was submitted to, the value
of the worker thread-local flag while the function body ran (thread_proc
sets it before calling the function), and the function's outcome, which
future.result hands to the blocking caller (return value, or the error
re-raised). ranInline means the function ran synchronously on the calling
thread with no submission. -/
inductive InvokeOutcome (α : Type) where
  | ranInline (result : Except PyErr α)
  | ranOnExecutor (executor : Nat) (worker_flag : Bool) (result : Except PyErr α)
deriving Repr

/-- The blocking path of pipeline_thread's underscore-prefixed
invoke_on_executor_thread (block = True). The wrapped function is modelled
by its behavior as a function of the thread-local flag it observes for
thread_name: func flag is its outcome when run on a thread whose flag
reads flag. caller_flagged is the calling thread's flag. If the caller is
not flagged, a thread_proc closure that sets the worker's flag and runs
func is submitted to the named executor and future.result marshals the
outcome back; if the caller is flagged, func runs inline with no
submission and the store untouched. -/
def invoke_on_executor_thread_blocking {α : Type} (st : ExecutorStore)
    (thread_name : ThreadName) (caller_flagged : Bool)
    (func : Bool → Except PyErr α) : InvokeOutcome α × ExecutorStore :=
  if caller_flagged = false then
    let (executor, st) := get_named_executor st thread_name
    (.ranOnExecutor executor true (func true), st)
  else
    (.ranInline (func caller_flagged), st)

/-! ## Protocol stage: common/pipeline/pipeline_stages_mqtt.py

MQTTClientStage's mutable attributes become a StageState record. A Python
attribute that is created only when first assigned is modelled with an
outer Option: none means the attribute does not exist yet (reading it
raises AttributeError), some v means it exists and holds v, where v is
itself an Option when the attribute can hold None. Operations are
identified by a Nat; each operation's mutable error slot and completion
flag live in the ops map of the World. Calls the stage makes on its
collaborators (the transport session, operation_flow, on_connected and
on_disconnected, the background-exception sink) are recorded as Actions. -/

/-- The operation kinds the stage dispatches on in its run-op handler, with
their payloads (pipeline_ops_base and pipeline_ops_mqtt). otherOp stands
for any operation of a type not tested by the if/elif chain. -/
inductive OpKind where
  | setMQTTConnectionArgs (hostname username client_id : String)
      (ca_cert : Option String)
  | setSasToken (sas_token : String)
  | setClientAuthenticationCertificate (certificate : String)
  | connect
  | reconnect
  | disconnect
  | mqttPublish (topic payload : String)
  | mqttSubscribe (topic : String)
  | mqttUnsubscribe (topic : String)
  | otherOp
deriving DecidableEq, Repr

/-- The mutable fields of one operation object: its error slot (unset means
success) and whether operation_flow.complete_op has run on it. -/
structure OpState where
  error : Option PyErr
  completed : Bool
deriving DecidableEq, Repr

/-- A fresh, not yet completed operation. -/
def freshOpState : OpState := { error := none, completed := false }

/-- MQTTClientStage's attributes. hostname, username and client_id are only
ever assigned strings; ca_cert, sas_token and trusted_certificate_chain
can be assigned None, so they carry an inner Option; transport holds the
MQTTTransport session handle (its identity does not matter here); the two
active-operation slots hold an operation id or None. The outer Option on
each field is attribute existence: all fields start at none (the attribute
was never assigned) and reading a none field raises AttributeError. -/
structure StageState where
  hostname : Option String
  username : Option String
  client_id : Option String
  ca_cert : Option (Option String)
  sas_token : Option (Option String)
  trusted_certificate_chain : Option (Option String)
  transport : Option Unit
  active_connect_op : Option (Option Nat)
  active_disconnect_op : Option (Option Nat)
deriving DecidableEq, Repr

/-- The full state: the stage's attributes, every operation's mutable
state, the set of publish/subscribe/unsubscribe operations whose ack
callback is registered with the transport and still outstanding, and the
id the next operation created upstream will get. -/
structure World where
  stage : StageState
  ops : Nat → OpState
  pending_acks : List Nat
  next_op : Nat

/-- A freshly constructed stage: no attribute assigned yet. -/
def initWorld : World :=
  { stage := { hostname := none, username := none, client_id := none,
               ca_cert := none, sas_token := none,
               trusted_certificate_chain := none, transport := none,
               active_connect_op := none, active_disconnect_op := none },
    ops := fun _ => freshOpState,
    pending_acks := [],
    next_op := 0 }

/-- An observable call the stage makes on a collaborator. -/
inductive Action where
  | sessionConnect (password : Option String) (client_certificate : Option String)
  | sessionReconnect (password : Option String)
  | sessionDisconnect
  | sessionPublish (topic payload : String)
  | sessionSubscribe (topic : String)
  | sessionUnsubscribe (topic : String)
  | completeOp (op : Nat) (error : Option PyErr)
  | passOpToNextStage (op : Nat)
  | onConnected
  | onDisconnected
  | incomingMessageEvent (topic payload : String)
  | backgroundException (cause : Option PyErr)
  | logUnexpected
deriving DecidableEq, Repr

/-- Result of running one handler body: the state as the handler left it,
the collaborator calls it made in order, and the exception it raised
(none when it returned normally). Python does not roll mutations back on
an exception, so w is the state at the raise point. -/
structure PRes where
  w : World
  acts : List Action
  exn : Option PyErr

/-- Write an operation's error slot (the Python assignment op.error = e). -/
def setOpError (w : World) (i : Nat) (e : Option PyErr) : World :=
  { w with ops := fun j => if j = i then { w.ops j with error := e } else w.ops j }

/-- Modelled from the spec: operation_flow.complete_op of the stage-chain
collaborator, which is not under src/. Per the spec it marks the operation
resolved, success if its error slot is empty and failure otherwise, and
propagates the result upward; here it sets the completed flag and records
a completeOp action carrying the operation's error slot at completion
time. -/
def complete_op (w : World) (i : Nat) : World × Action :=
  (({ w with
      ops := fun j => if j = i then { w.ops j with completed := true } else w.ops j }),
   .completeOp i (w.ops i).error)

/-- MQTTClientStage's underscore-prefixed
cancel_active_connect_disconnect_ops, faithful to the source. The source
initializes ops_to_cancel to a Python LIST and then calls
ops_to_cancel.add(...); lists have no add method (that is the set method),
so the first occupied slot makes that call raise
AttributeError before the slot is cleared; the statements that would clear
the slot, attach the superseding PipelineError and complete the cancelled
operation are unreachable whenever a slot is occupied. When both slots
exist and are empty, ops_to_cancel stays empty and the completion loop
body never runs, so the helper returns normally having changed nothing.
Reading a slot attribute that was never created raises AttributeError
directly. -/
def cancel_active_connect_disconnect_ops (w : World) : PRes :=
  match w.stage.active_connect_op with
  | none => { w := w, acts := [], exn := some (.attributeError "_active_connect_op") }
  | some connect_slot =>
    match connect_slot with
    | some _ => { w := w, acts := [], exn := some (.attributeError "add") }
    | none =>
      match w.stage.active_disconnect_op with
      | none =>
        { w := w, acts := [], exn := some (.attributeError "_active_disconnect_op") }
      | some disconnect_slot =>
        match disconnect_slot with
        | some _ => { w := w, acts := [], exn := some (.attributeError "add") }
        | none => { w := w, acts := [], exn := none }

/-- MQTTClientStage's underscore-prefixed run_op handler body. i is the id
of the arriving operation, k its kind. session_raises is the behavior of
the transport call the handler makes, if any: none when the call returns,
some e when it raises e synchronously. Each branch follows the source's
if/elif chain:

- SetMQTTConnectionArgsOperation: store the connection parameters, set
  sas_token and trusted_certificate_chain to None, construct the
  MQTTTransport and wire its four callbacks, set both active slots to
  None, complete the operation.
- SetSasTokenOperation / SetClientAuthenticationCertificateOperation:
  store the credential, complete the operation.
- ConnectOperation / ReconnectOperation / DisconnectOperation: run the
  cancellation helper (outside any try), store the operation in its slot,
  then inside a try call the session (connect reads sas_token and
  trusted_certificate_chain, reconnect reads sas_token); on any exception
  from inside the try the slot is set back to None and the exception
  re-raised. A missing transport, sas_token or trusted_certificate_chain
  attribute raises AttributeError inside the try.
- Publish/Subscribe/Unsubscribe: call the session with an ack callback;
  the operation id becomes pending until the ack completes it.
- anything else: pass the operation to the next stage. -/
def run_op_impl (w : World) (i : Nat) (k : OpKind)
    (session_raises : Option PyErr) : PRes :=
  match k with
  | .setMQTTConnectionArgs hostname username client_id ca_cert =>
    let st := w.stage
    let st := { st with
      hostname := some hostname,
      username := some username,
      client_id := some client_id,
      ca_cert := some ca_cert,
      sas_token := some none,
      trusted_certificate_chain := some none,
      transport := some (),
      active_connect_op := some none,
      active_disconnect_op := some none }
    let (w1, a) := complete_op { w with stage := st } i
    { w := w1, acts := [a], exn := none }
  | .setSasToken sas_token =>
    let w1 := { w with stage := { w.stage with sas_token := some (some sas_token) } }
    let (w2, a) := complete_op w1 i
    { w := w2, acts := [a], exn := none }
  | .setClientAuthenticationCertificate certificate =>
    let w1 := { w with stage :=
      { w.stage with trusted_certificate_chain := some (some certificate) } }
    let (w2, a) := complete_op w1 i
    { w := w2, acts := [a], exn := none }
  | .connect =>
    match cancel_active_connect_disconnect_ops w with
    | { w := w1, acts := acts, exn := some e } => { w := w1, acts := acts, exn := some e }
    | { w := w1, acts := acts, exn := none } =>
      let w2 := { w1 with stage := { w1.stage with active_connect_op := some (some i) } }
      let clear := fun (w : World) =>
        { w with stage := { w.stage with active_connect_op := some none } }
      match w2.stage.transport with
      | none => { w := clear w2, acts := acts, exn := some (.attributeError "transport") }
      | some _ =>
        match w2.stage.sas_token with
        | none => { w := clear w2, acts := acts, exn := some (.attributeError "sas_token") }
        | some password =>
          match w2.stage.trusted_certificate_chain with
          | none =>
            { w := clear w2, acts := acts,
              exn := some (.attributeError "trusted_certificate_chain") }
          | some client_certificate =>
            match session_raises with
            | some e =>
              { w := clear w2,
                acts := acts ++ [.sessionConnect password client_certificate],
                exn := some e }
            | none =>
              { w := w2, acts := acts ++ [.sessionConnect password client_certificate],
                exn := none }
  | .reconnect =>
    match cancel_active_connect_disconnect_ops w with
    | { w := w1, acts := acts, exn := some e } => { w := w1, acts := acts, exn := some e }
    | { w := w1, acts := acts, exn := none } =>
      let w2 := { w1 with stage := { w1.stage with active_connect_op := some (some i) } }
      let clear := fun (w : World) =>
        { w with stage := { w.stage with active_connect_op := some none } }
      match w2.stage.transport with
      | none => { w := clear w2, acts := acts, exn := some (.attributeError "transport") }
      | some _ =>
        match w2.stage.sas_token with
        | none => { w := clear w2, acts := acts, exn := some (.attributeError "sas_token") }
        | some password =>
          match session_raises with
          | some e =>
            { w := clear w2, acts := acts ++ [.sessionReconnect password], exn := some e }
          | none =>
            { w := w2, acts := acts ++ [.sessionReconnect password], exn := none }
  | .disconnect =>
    match cancel_active_connect_disconnect_ops w with
    | { w := w1, acts := acts, exn := some e } => { w := w1, acts := acts, exn := some e }
    | { w := w1, acts := acts, exn := none } =>
      let w2 :=
        { w1 with stage := { w1.stage with active_disconnect_op := some (some i) } }
      let clear := fun (w : World) =>
        { w with stage := { w.stage with active_disconnect_op := some none } }
      match w2.stage.transport with
      | none => { w := clear w2, acts := acts, exn := some (.attributeError "transport") }
      | some _ =>
        match session_raises with
        | some e => { w := clear w2, acts := acts ++ [.sessionDisconnect], exn := some e }
        | none => { w := w2, acts := acts ++ [.sessionDisconnect], exn := none }
  | .mqttPublish topic payload =>
    match w.stage.transport with
    | none => { w := w, acts := [], exn := some (.attributeError "transport") }
    | some _ =>
      match session_raises with
      | some e => { w := w, acts := [.sessionPublish topic payload], exn := some e }
      | none =>
        { w := { w with pending_acks := i :: w.pending_acks },
          acts := [.sessionPublish topic payload], exn := none }
  | .mqttSubscribe topic =>
    match w.stage.transport with
    | none => { w := w, acts := [], exn := some (.attributeError "transport") }
    | some _ =>
      match session_raises with
      | some e => { w := w, acts := [.sessionSubscribe topic], exn := some e }
      | none =>
        { w := { w with pending_acks := i :: w.pending_acks },
          acts := [.sessionSubscribe topic], exn := none }
  | .mqttUnsubscribe topic =>
    match w.stage.transport with
    | none => { w := w, acts := [], exn := some (.attributeError "transport") }
    | some _ =>
      match session_raises with
      | some e => { w := w, acts := [.sessionUnsubscribe topic], exn := some e }
      | none =>
        { w := { w with pending_acks := i :: w.pending_acks },
          acts := [.sessionUnsubscribe topic], exn := none }
  | .otherOp => { w := w, acts := [.passOpToNextStage i], exn := none }

/-- Modelled from the spec: the stage-chain base class run-op wrapper (not
under src/), per the spec's propagation policy: a failure detected
synchronously inside an operation's handler is attached to that
operation's error slot and the operation completes immediately. So the
wrapper runs the handler body and, if it raised, stores the exception in
the operation's error slot and completes the operation; a normal return
passes through. -/
def run_op (w : World) (i : Nat) (k : OpKind)
    (session_raises : Option PyErr) : World × List Action :=
  match run_op_impl w i k session_raises with
  | { w := w1, acts := acts, exn := none } => (w1, acts)
  | { w := w1, acts := acts, exn := some e } =>
    let w2 := setOpError w1 i (some e)
    let (w3, a) := complete_op w2 i
    (w3, acts ++ [a])

/-- MQTTClientStage's underscore-prefixed handle_mqtt_connected. It first
calls self.on_connected (connectivity notification before any
completion); then, if an active connect operation exists, clears the slot
and completes that operation; otherwise it only logs that the connection
was unexpected. Reading a never-created slot attribute raises
AttributeError (after the notification). -/
def handle_mqtt_connected (w : World) : PRes :=
  match w.stage.active_connect_op with
  | none =>
    { w := w, acts := [.onConnected],
      exn := some (.attributeError "_active_connect_op") }
  | some none => { w := w, acts := [.onConnected, .logUnexpected], exn := none }
  | some (some i) =>
    let w1 := { w with stage := { w.stage with active_connect_op := some none } }
    let (w2, a) := complete_op w1 i
    { w := w2, acts := [.onConnected, a], exn := none }

/-- MQTTClientStage's underscore-prefixed handle_mqtt_connection_failure:
if an active connect operation exists, clear the slot, attach the cause
to its error slot and complete it; otherwise log and route the cause to
the unhandled-background-exception sink. -/
def handle_mqtt_connection_failure (w : World) (cause : PyErr) : PRes :=
  match w.stage.active_connect_op with
  | none =>
    { w := w, acts := [], exn := some (.attributeError "_active_connect_op") }
  | some none =>
    { w := w, acts := [.logUnexpected, .backgroundException (some cause)], exn := none }
  | some (some i) =>
    let w1 := { w with stage := { w.stage with active_connect_op := some none } }
    let w2 := setOpError w1 i (some cause)
    let (w3, a) := complete_op w2 i
    { w := w3, acts := [a], exn := none }

/-- MQTTClientStage's underscore-prefixed handle_mqtt_disconnected. It
first calls self.on_disconnected; then, if an active disconnect operation
exists, clears the slot, attaches the cause (which may be None for a
clean disconnect) to its error slot and completes it; otherwise logs and
routes the cause to the unhandled-background-exception sink. -/
def handle_mqtt_disconnected (w : World) (cause : Option PyErr) : PRes :=
  match w.stage.active_disconnect_op with
  | none =>
    { w := w, acts := [.onDisconnected],
      exn := some (.attributeError "_active_disconnect_op") }
  | some none =>
    { w := w,
      acts := [.onDisconnected, .logUnexpected, .backgroundException cause],
      exn := none }
  | some (some i) =>
    let w1 := { w with stage := { w.stage with active_disconnect_op := some none } }
    let w2 := setOpError w1 i cause
    let (w3, a) := complete_op w2 i
    { w := w3, acts := [.onDisconnected, a], exn := none }

/-- MQTTClientStage's underscore-prefixed handle_mqtt_message_received:
emit an IncomingMQTTMessageEvent upward; no stage state is touched. -/
def handle_mqtt_message_received (w : World) (topic payload : String) : PRes :=
  { w := w, acts := [.incomingMessageEvent topic payload], exn := none }

/-- The on_published / on_subscribed / on_unsubscribed closures registered
with the transport: once the ack arrives (on the pipeline thread), the
closure completes its operation. The id leaves the outstanding-ack set. -/
def handle_ack (w : World) (i : Nat) : World × List Action :=
  let (w1, a) := complete_op { w with pending_acks := w.pending_acks.erase i } i
  (w1, [a])

/-! ## The stage's environment: commands and reachable states

A command is one entry into the stage from its environment: an operation
arriving from upstream (run through the base-class wrapper), one of the
four session callbacks (marshalled onto the pipeline context), or an ack
firing for an outstanding publish/subscribe/unsubscribe. allowedCmd
restricts commands to the operating envelope the spec documents: a
SetMQTTConnectionArgsOperation arrives only while the session is not yet
created (the spec's precondition for it), the session callbacks and acks
can only fire once the transport exists and its callbacks are wired, and
an ack only fires for an operation whose ack is outstanding. Operation
ids are allocated in arrival order from next_op, matching ownership of
fresh operation objects by the upstream caller. -/

/-- One entry into the stage from its environment. -/
inductive Cmd where
  | runOp (k : OpKind) (session_raises : Option PyErr)
  | mqttConnected
  | mqttConnectionFailure (cause : PyErr)
  | mqttDisconnected (cause : Option PyErr)
  | mqttMessageReceived (topic payload : String)
  | ack (i : Nat)
deriving DecidableEq, Repr

/-- Whether a command can occur in a state (the spec's operating envelope). -/
def allowedCmd (w : World) : Cmd → Bool
  | .runOp (.setMQTTConnectionArgs _ _ _ _) _ => w.stage.transport.isNone
  | .runOp _ _ => true
  | .mqttConnected => w.stage.transport.isSome
  | .mqttConnectionFailure _ => w.stage.transport.isSome
  | .mqttDisconnected _ => w.stage.transport.isSome
  | .mqttMessageReceived _ _ => w.stage.transport.isSome
  | .ack i => w.pending_acks.contains i

/-- Execute one command. A callback handler that raises does so on the
pipeline worker via a nowait dispatch, so nobody re-raises its exception:
the state is simply the state at the raise point. -/
def stepCmd (w : World) : Cmd → World × List Action
  | .runOp k session_raises =>
    run_op { w with next_op := w.next_op + 1 } w.next_op k session_raises
  | .mqttConnected =>
    let r := handle_mqtt_connected w
    (r.w, r.acts)
  | .mqttConnectionFailure cause =>
    let r := handle_mqtt_connection_failure w cause
    (r.w, r.acts)
  | .mqttDisconnected cause =>
    let r := handle_mqtt_disconnected w cause
    (r.w, r.acts)
  | .mqttMessageReceived topic payload =>
    let r := handle_mqtt_message_received w topic payload
    (r.w, r.acts)
  | .ack i => handle_ack w i

/-- The states the stage can be in: the fresh stage, and everything an
allowed command leads to. -/
inductive Reachable : World → Prop where
  | init : Reachable initWorld
  | step {w : World} (c : Cmd) :
      Reachable w → allowedCmd w c = true → Reachable (stepCmd w c).1

/-! ## Concrete scenario states used by witnesses and counterexamples -/

/-- The stage right after SetMQTTConnectionArgsOperation (operation 0):
transport created, both slots existing and empty, credentials None. -/
def readyWorld : World :=
  (stepCmd initWorld (.runOp (.setMQTTConnectionArgs "h" "u" "c" none) none)).1

/-- readyWorld after a ConnectOperation (operation 1) whose session call
returned: operation 1 sits uncompleted in the active-connect slot. -/
def pendingConnectWorld : World := (stepCmd readyWorld (.runOp .connect none)).1

/-- readyWorld after SetClientAuthenticationCertificateOperation storing a
certificate (operation 1) and then SetSasTokenOperation storing a token
(operation 2): the token is the credential set last. -/
def latchWorld : World :=
  (stepCmd (stepCmd readyWorld
    (.runOp (.setClientAuthenticationCertificate "crt") none)).1
    (.runOp (.setSasToken "tok") none)).1

/-! ## Theorems settling the claims -/

/-- C5, the claim as frozen, refuted: the claim's table sends both 408 and
504 to the one documented kind Timeout, hence it entails that the errors
built from 408 and from 504 share a kind; in the source 408 maps to
DeviceTimeoutError and 504 to TimeoutError, two distinct classes of
errors.py, so the two kinds differ. -/
theorem C5_counterexample :
    (error_from_status_code 408 (some "m")).cls ≠
      (error_from_status_code 504 (some "m")).cls := by
  decide

/-- C5 amended: for every status code of the table, error_from_status_code
returns the documented class constructed with the given message, where 408
maps to DeviceTimeoutError, a kind distinct from the TimeoutError that 504
maps to; for every status code outside the table it returns
FailedStatusCodeError carrying the original message. -/
theorem C5_status_code_mapping (m : Option String) :
    (∀ c : Nat,
        c ∉ [400, 401, 403, 404, 408, 409, 412, 413, 429, 500, 502, 503, 504] →
        error_from_status_code c m =
          { cls := .FailedStatusCodeError, message := m, cause := none }) ∧
    error_from_status_code 400 m = { cls := .ArgumentError, message := m, cause := none } ∧
    error_from_status_code 401 m = { cls := .UnauthorizedError, message := m, cause := none } ∧
    error_from_status_code 403 m = { cls := .QuotaExceededError, message := m, cause := none } ∧
    error_from_status_code 404 m = { cls := .NotFoundError, message := m, cause := none } ∧
    error_from_status_code 408 m = { cls := .DeviceTimeoutError, message := m, cause := none } ∧
    error_from_status_code 409 m =
      { cls := .DeviceAlreadyExistsError, message := m, cause := none } ∧
    error_from_status_code 412 m = { cls := .InvalidEtagError, message := m, cause := none } ∧
    error_from_status_code 413 m =
      { cls := .MessageTooLargeError, message := m, cause := none } ∧
    error_from_status_code 429 m = { cls := .ThrottlingError, message := m, cause := none } ∧
    error_from_status_code 500 m =
      { cls := .InternalServiceError, message := m, cause := none } ∧
    error_from_status_code 502 m =
      { cls := .BadDeviceResponseError, message := m, cause := none } ∧
    error_from_status_code 503 m =
      { cls := .ServiceUnavailableError, message := m, cause := none } ∧
    error_from_status_code 504 m = { cls := .TimeoutError, message := m, cause := none } := by
  refine ⟨?_, rfl, rfl, rfl, rfl, rfl, rfl, rfl, rfl, rfl, rfl, rfl, rfl, rfl⟩
  intro c hc
  simp only [List.mem_cons, List.not_mem_nil, or_false, not_or] at hc
  obtain ⟨h1, h2, h3, h4, h5, h6, h7, h8, h9, h10, h11, h12, h13⟩ := hc
  simp [error_from_status_code, status_code_to_error,
    h1, h2, h3, h4, h5, h6, h7, h8, h9, h10, h11, h12, h13]

/-- C5 witness: an unmapped status code degrades to FailedStatusCodeError
with the original message preserved. -/
theorem C5_witness :
    error_from_status_code 999 (some "x") =
      { cls := .FailedStatusCodeError, message := some "x", cause := none } :=
  (C5_status_code_mapping (some "x")).1 999 (by decide)

/-- The conack dictionary only ever yields the five connection-refusal
classes. -/
lemma conack_lookup_range (rc : Int) (pcls : PahoErrorClass)
    (h : paho_conack_rc_to_error rc = some pcls) :
    pcls ∈ [PahoErrorClass.PahoConnectionRefusedProtocolVersionError,
      .PahoConnectionRefusedIdentifierRejectedError,
      .PahoConnectionRefusedServerUnavailableError,
      .PahoConnectionRefusedBadUsernamePasswordError,
      .PahoConnectionRefusedNotAuthorizedError] := by
  unfold paho_conack_rc_to_error at h
  by_cases h1 : rc = CONNACK_REFUSED_PROTOCOL_VERSION
  · rw [if_pos h1] at h; injection h with h; subst h; decide
  rw [if_neg h1] at h
  by_cases h2 : rc = CONNACK_REFUSED_IDENTIFIER_REJECTED
  · rw [if_pos h2] at h; injection h with h; subst h; decide
  rw [if_neg h2] at h
  by_cases h3 : rc = CONNACK_REFUSED_SERVER_UNAVAILABLE
  · rw [if_pos h3] at h; injection h with h; subst h; decide
  rw [if_neg h3] at h
  by_cases h4 : rc = CONNACK_REFUSED_BAD_USERNAME_PASSWORD
  · rw [if_pos h4] at h; injection h with h; subst h; decide
  rw [if_neg h4] at h
  by_cases h5 : rc = CONNACK_REFUSED_NOT_AUTHORIZED
  · rw [if_pos h5] at h; injection h with h; subst h; decide
  rw [if_neg h5] at h
  exact Option.noConfusion h

set_option maxHeartbeats 1000000 in
/-- The rc dictionary only ever yields the fourteen operational classes. -/
lemma rc_lookup_range (rc : Int) (pcls : PahoErrorClass)
    (h : paho_rc_to_error rc = some pcls) :
    pcls ∈ [PahoErrorClass.PahoNoMemoryError, .PahoProtocolError,
      .PahoInvalidArgsError, .PahoNoConnectionError, .PahoConnectionRefusedError,
      .PahoNotFoundError, .PahoConnectionLostError, .PahoTLSError,
      .PahoPayloadSizeError, .PahoNotSupportedError, .PahoAuthError,
      .PahoACLDeniedError, .PahoUnknownError, .PahoQueueSizeError] := by
  unfold paho_rc_to_error at h
  by_cases h1 : rc = MQTT_ERR_NOMEM
  · rw [if_pos h1] at h; injection h with h; subst h; decide
  rw [if_neg h1] at h
  by_cases h2 : rc = MQTT_ERR_PROTOCOL
  · rw [if_pos h2] at h; injection h with h; subst h; decide
  rw [if_neg h2] at h
  by_cases h3 : rc = MQTT_ERR_INVAL
  · rw [if_pos h3] at h; injection h with h; subst h; decide
  rw [if_neg h3] at h
  by_cases h4 : rc = MQTT_ERR_NO_CONN
  · rw [if_pos h4] at h; injection h with h; subst h; decide
  rw [if_neg h4] at h
  by_cases h5 : rc = MQTT_ERR_CONN_REFUSED
  · rw [if_pos h5] at h; injection h with h; subst h; decide
  rw [if_neg h5] at h
  by_cases h6 : rc = MQTT_ERR_NOT_FOUND
  · rw [if_pos h6] at h; injection h with h; subst h; decide
  rw [if_neg h6] at h
  by_cases h7 : rc = MQTT_ERR_CONN_LOST
  · rw [if_pos h7] at h; injection h with h; subst h; decide
  rw [if_neg h7] at h
  by_cases h8 : rc = MQTT_ERR_TLS
  · rw [if_pos h8] at h; injection h with h; subst h; decide
  rw [if_neg h8] at h
  by_cases h9 : rc = MQTT_ERR_PAYLOAD_SIZE
  · rw [if_pos h9] at h; injection h with h; subst h; decide
  rw [if_neg h9] at h
  by_cases h10 : rc = MQTT_ERR_NOT_SUPPORTED
  · rw [if_pos h10] at h; injection h with h; subst h; decide
  rw [if_neg h10] at h
  by_cases h11 : rc = MQTT_ERR_AUTH
  · rw [if_pos h11] at h; injection h with h; subst h; decide
  rw [if_neg h11] at h
  by_cases h12 : rc = MQTT_ERR_ACL_DENIED
  · rw [if_pos h12] at h; injection h with h; subst h; decide
  rw [if_neg h12] at h
  by_cases h13 : rc = MQTT_ERR_UNKNOWN
  · rw [if_pos h13] at h; injection h with h; subst h; decide
  rw [if_neg h13] at h
  by_cases h14 : rc = MQTT_ERR_ERRNO
  · rw [if_pos h14] at h; injection h with h; subst h; decide
  rw [if_neg h14] at h
  by_cases h15 : rc = MQTT_ERR_QUEUE_SIZE
  · rw [if_pos h15] at h; injection h with h; subst h; decide
  rw [if_neg h15] at h
  exact Option.noConfusion h

/-- C6: for every library code and any library description functions, the
conack mapper lands in the documented kind set for refusal codes
(TransportError, ConnectionFailedError, UnauthorizedError), the rc mapper
lands in the documented kind set for result codes (TransportError,
ConnectionDroppedError, UnauthorizedError); a code in a table yields a
cause that is exactly the Paho-specific error of the table's class built
with the library's description of that code, a code in no table yields
TransportError whose cause is exactly a PahoUnknownError built with the
library's description; the cause is never discarded. -/
theorem C6_library_code_mapping (conack_string error_string : Int → String) (rc : Int) :
    (create_error_from_conack_rc_code conack_string rc).cls ∈
      [ErrorClass.TransportError, .ConnectionFailedError, .UnauthorizedError] ∧
    (create_error_from_rc_code error_string rc).cls ∈
      [ErrorClass.TransportError, .ConnectionDroppedError, .UnauthorizedError] ∧
    (∀ pcls : PahoErrorClass, paho_conack_rc_to_error rc = some pcls →
      (create_error_from_conack_rc_code conack_string rc).cause =
        some { cls := pcls, message := some (conack_string rc) }) ∧
    (paho_conack_rc_to_error rc = none →
      create_error_from_conack_rc_code conack_string rc =
        { cls := .TransportError, message := none,
          cause := some { cls := .PahoUnknownError, message := some (conack_string rc) } }) ∧
    (∀ pcls : PahoErrorClass, paho_rc_to_error rc = some pcls →
      (create_error_from_rc_code error_string rc).cause =
        some { cls := pcls, message := some (error_string rc) }) ∧
    (paho_rc_to_error rc = none →
      create_error_from_rc_code error_string rc =
        { cls := .TransportError, message := none,
          cause := some { cls := .PahoUnknownError, message := some (error_string rc) } }) := by
  refine ⟨?_, ?_, ?_, ?_, ?_, ?_⟩
  · rcases h : paho_conack_rc_to_error rc with _ | pcls
    · simp [create_error_from_conack_rc_code, h, wrap_paho_error_in_generic_error,
        paho_error_to_generic_error]
    · have hm := conack_lookup_range rc pcls h
      fin_cases hm <;>
        simp [create_error_from_conack_rc_code, h, wrap_paho_error_in_generic_error,
          paho_error_to_generic_error]
  · rcases h : paho_rc_to_error rc with _ | pcls
    · simp [create_error_from_rc_code, h, wrap_paho_error_in_generic_error,
        paho_error_to_generic_error]
    · have hm := rc_lookup_range rc pcls h
      fin_cases hm <;>
        simp [create_error_from_rc_code, h, wrap_paho_error_in_generic_error,
          paho_error_to_generic_error]
  · intro pcls h
    simp [create_error_from_conack_rc_code, wrap_paho_error_in_generic_error, h]
  · intro h
    simp [create_error_from_conack_rc_code, wrap_paho_error_in_generic_error, h,
      paho_error_to_generic_error]
  · intro pcls h
    simp [create_error_from_rc_code, wrap_paho_error_in_generic_error, h]
  · intro h
    simp [create_error_from_rc_code, wrap_paho_error_in_generic_error, h,
      paho_error_to_generic_error]

/-- C6 witness: the connection-refused-server-unavailable refusal code maps
to ConnectionFailedError and carries exactly the library-built Paho error
as its cause. -/
theorem C6_witness :
    (create_error_from_conack_rc_code (fun _ => "s") 3).cause =
      some { cls := .PahoConnectionRefusedServerUnavailableError, message := some "s" } :=
  (C6_library_code_mapping (fun _ => "s") (fun _ => "s") 3).2.2.1
    .PahoConnectionRefusedServerUnavailableError (by decide)

/-- C10: for every library code, known or unknown, the generic error the
two library-code mappers return is constructed with no message of its own;
the library's human-readable description of the code is carried only by
the wrapped Paho-specific causal error. -/
theorem C10_description_only_on_cause
    (conack_string error_string : Int → String) (rc : Int) :
    (create_error_from_conack_rc_code conack_string rc).message = none ∧
    (create_error_from_rc_code error_string rc).message = none ∧
    ((create_error_from_conack_rc_code conack_string rc).cause).map PahoError.message =
      some (some (conack_string rc)) ∧
    ((create_error_from_rc_code error_string rc).cause).map PahoError.message =
      some (some (error_string rc)) := by
  refine ⟨rfl, rfl, ?_, ?_⟩
  · unfold create_error_from_conack_rc_code wrap_paho_error_in_generic_error
    cases paho_conack_rc_to_error rc <;> rfl
  · unfold create_error_from_rc_code wrap_paho_error_in_generic_error
    cases paho_rc_to_error rc <;> rfl

/-- C4, evaluated at the failing input: on a fresh store, the first lookup
of the pipeline executor returns one freshly constructed executor but
stores a second, distinct one, and every subsequent lookup returns the
stored one — so the executor returned on first use is NOT the executor
every later lookup returns, contradicting the lazily-provision-once
contract (and the function's own docstring, which says it creates one
executor and assigns it to the name). -/
theorem C4_evaluation :
    get_named_executor emptyExecutorStore .pipeline =
      (0, { pipeline_attr := some 1, callback_attr := none, next_executor_id := 2 }) ∧
    (get_named_executor
      (get_named_executor emptyExecutorStore .pipeline).2 .pipeline).1 = 1 ∧
    (get_named_executor emptyExecutorStore .pipeline).1 ≠
      (get_named_executor
        (get_named_executor emptyExecutorStore .pipeline).2 .pipeline).1 := by
  decide

/-- C8: for every store and every function behavior, blocking dispatch onto
the pipeline context from a thread not flagged as pipeline submits the
function to the executor looked up for the pipeline name, runs it with the
worker's pipeline flag set, and hands the caller the function's outcome
(its return value, or its error re-raised by future.result); from a thread
already flagged as pipeline it runs the function inline, synchronously,
with no submission and the executor store untouched. -/
theorem C8_blocking_dispatch {α : Type} (st : ExecutorStore)
    (func : Bool → Except PyErr α) :
    invoke_on_executor_thread_blocking st .pipeline false func =
      (.ranOnExecutor (get_named_executor st .pipeline).1 true (func true),
        (get_named_executor st .pipeline).2) ∧
    invoke_on_executor_thread_blocking st .pipeline true func =
      (.ranInline (func true), st) := by
  constructor
  · simp [invoke_on_executor_thread_blocking]
  · simp [invoke_on_executor_thread_blocking]

/-- C1, evaluated at the failing input: with ConnectOperation 1 sitting in
the active-connect slot, a new ConnectOperation (id 2) does NOT complete
the superseded operation with a PipelineError before its session call:
the cancellation helper's ops_to_cancel.add raises AttributeError (Python
lists have no add method), so the stage makes no session call at all, the
superseded operation 1 stays uncompleted with an empty error slot, the
active-connect slot still references operation 1, and the only completion
is the NEW operation failing with the AttributeError. -/
theorem C1_evaluation :
    (stepCmd pendingConnectWorld (.runOp .connect none)).2 =
      [.completeOp 2 (some (.attributeError "add"))] ∧
    ((stepCmd pendingConnectWorld (.runOp .connect none)).1.ops 1).completed = false ∧
    ((stepCmd pendingConnectWorld (.runOp .connect none)).1.ops 1).error = none ∧
    (stepCmd pendingConnectWorld (.runOp .connect none)).1.stage.active_connect_op =
      some (some 1) := by
  decide

/-- C2: for every stage state whose slots exist and are empty, whose
transport exists and whose credential attributes exist, and every error e
the session call raises synchronously, each of Connect, Reconnect and
Disconnect attaches e to the arriving operation's error slot and completes
the operation in the same handler invocation, with the active slot cleared
(set back to None) before the completion; the wrapper re-raises nothing,
and the recorded collaborator calls show the one session call followed by
exactly one completion, of that operation, with exactly that error — the
failure is propagated no other way. -/
theorem C2_sync_raise_completes (w : World) (i : Nat) (e : PyErr)
    (password client_certificate : Option String)
    (hc : w.stage.active_connect_op = some none)
    (hd : w.stage.active_disconnect_op = some none)
    (ht : w.stage.transport = some ())
    (hs : w.stage.sas_token = some password)
    (hcert : w.stage.trusted_certificate_chain = some client_certificate) :
    (((run_op w i .connect (some e)).1.ops i).error = some e ∧
     ((run_op w i .connect (some e)).1.ops i).completed = true ∧
     (run_op w i .connect (some e)).1.stage.active_connect_op = some none ∧
     (run_op w i .connect (some e)).2 =
       [.sessionConnect password client_certificate, .completeOp i (some e)]) ∧
    (((run_op w i .reconnect (some e)).1.ops i).error = some e ∧
     ((run_op w i .reconnect (some e)).1.ops i).completed = true ∧
     (run_op w i .reconnect (some e)).1.stage.active_connect_op = some none ∧
     (run_op w i .reconnect (some e)).2 =
       [.sessionReconnect password, .completeOp i (some e)]) ∧
    (((run_op w i .disconnect (some e)).1.ops i).error = some e ∧
     ((run_op w i .disconnect (some e)).1.ops i).completed = true ∧
     (run_op w i .disconnect (some e)).1.stage.active_disconnect_op = some none ∧
     (run_op w i .disconnect (some e)).2 =
       [.sessionDisconnect, .completeOp i (some e)]) := by
  refine ⟨⟨?_, ?_, ?_, ?_⟩, ⟨?_, ?_, ?_, ?_⟩, ⟨?_, ?_, ?_, ?_⟩⟩ <;>
    simp [run_op, run_op_impl, cancel_active_connect_disconnect_ops,
      hc, hd, ht, hs, hcert, complete_op, setOpError]

/-- C2 witness: a Connect on the freshly configured stage whose session
connect raises completes operation 7 with that error. -/
theorem C2_witness :
    ((run_op readyWorld 7 .connect (some (.sessionError 3))).1.ops 7).error =
      some (.sessionError 3) :=
  (C2_sync_raise_completes readyWorld 7 (.sessionError 3) none none
    (by decide) (by decide) (by decide) (by decide) (by decide)).1.1

/-- C7, the claim as frozen, refuted at a concrete input: store a
certificate, then store a token (the token is set last), then Connect.
If token and certificate were mutually latched with only the last-set
kind in effect, the session connect would receive the token as password
and no client certificate; instead the stage passes BOTH stored
credentials, so the earlier-set certificate is still in effect. -/
theorem C7_counterexample :
    (stepCmd latchWorld (.runOp .connect none)).2 =
      [.sessionConnect (some "tok") (some "crt")] ∧
    (stepCmd latchWorld (.runOp .connect none)).2 ≠
      [.sessionConnect (some "tok") none] := by
  decide

/-- C7 amended: the stage stores token and client certificate in two
independent latches (SetSasTokenOperation overwrites only the token,
SetClientAuthenticationCertificateOperation overwrites only the
certificate; SetMQTTConnectionArgsOperation resets both to None). Connect
passes the last-stored token as password together with the last-stored
certificate as client certificate: replacing a credential before Connect
changes what is passed for that credential, and leaves the other latch
untouched. -/
theorem C7_credential_latches (w : World) (i j : Nat) (t c : String)
    (password client_certificate : Option String)
    (hc : w.stage.active_connect_op = some none)
    (hd : w.stage.active_disconnect_op = some none)
    (ht : w.stage.transport = some ())
    (hs : w.stage.sas_token = some password)
    (hcert : w.stage.trusted_certificate_chain = some client_certificate) :
    (run_op (run_op w i (.setSasToken t) none).1 j .connect none).2 =
      [.sessionConnect (some t) client_certificate] ∧
    (run_op (run_op w i (.setClientAuthenticationCertificate c) none).1
        j .connect none).2 =
      [.sessionConnect password (some c)] := by
  constructor <;>
    simp [run_op, run_op_impl, cancel_active_connect_disconnect_ops,
      hc, hd, ht, hs, hcert, complete_op, setOpError]

/-- C7 witness: on the freshly configured stage (both credentials None),
storing the token makes Connect pass it, with the certificate latch still
None. -/
theorem C7_witness :
    (run_op (run_op readyWorld 1 (.setSasToken "tok") none).1 2 .connect none).2 =
      [.sessionConnect (some "tok") none] :=
  (C7_credential_latches readyWorld 1 2 "tok" "c2" none none
    (by decide) (by decide) (by decide) (by decide) (by decide)).1

/-- C9: whenever the session's connected callback runs while the
active-connect slot exists and is empty, the handler returns normally
(raises nothing), leaves the entire state — both slots, connection
parameters, credentials, transport handle, every operation's state —
unchanged, and makes no completion: it only emits the connectivity
notification the source always emits first, and logs that the connection
was unexpected. -/
theorem C9_unsolicited_connect_noop (w : World)
    (h : w.stage.active_connect_op = some none) :
    handle_mqtt_connected w =
      { w := w, acts := [.onConnected, .logUnexpected], exn := none } := by
  simp [handle_mqtt_connected, h]

/-- C9 witness: the freshly configured stage has an empty active-connect
slot and an unsolicited connected callback changes nothing. -/
theorem C9_witness :
    handle_mqtt_connected readyWorld =
      { w := readyWorld, acts := [.onConnected, .logUnexpected], exn := none } :=
  C9_unsolicited_connect_noop readyWorld (by decide)

/-! ## Helper lemmas for the slot-discipline invariant (claim C3) -/

/-- Whenever one of the two slots is not an existing-and-empty attribute,
the cancellation helper raises (AttributeError on a missing attribute, or
the list-add AttributeError on an occupied slot) leaving the state and the
recorded calls untouched. -/
lemma cancel_raises {w : World}
    (h : ¬(w.stage.active_connect_op = some none ∧
           w.stage.active_disconnect_op = some none)) :
    ∃ e, cancel_active_connect_disconnect_ops w =
      { w := w, acts := [], exn := some e } := by
  rcases h1 : w.stage.active_connect_op with _ | (_ | i)
  · exact ⟨.attributeError "_active_connect_op",
      by simp [cancel_active_connect_disconnect_ops, h1]⟩
  · rcases h2 : w.stage.active_disconnect_op with _ | (_ | j)
    · exact ⟨.attributeError "_active_disconnect_op",
        by simp [cancel_active_connect_disconnect_ops, h1, h2]⟩
    · exact absurd ⟨h1, h2⟩ h
    · exact ⟨.attributeError "add",
        by simp [cancel_active_connect_disconnect_ops, h1, h2]⟩
  · exact ⟨.attributeError "add",
      by simp [cancel_active_connect_disconnect_ops, h1]⟩

/-- When the cancellation helper raises, a Connect, Reconnect or Disconnect
leaves the whole stage attribute record unchanged (the wrapper completes
the new operation with the error; only operation state changes). -/
lemma connect_family_stage_unchanged {w : World} {k : OpKind}
    (b : Option PyErr)
    (hk : k = OpKind.connect ∨ k = OpKind.reconnect ∨ k = OpKind.disconnect)
    (h : ¬(w.stage.active_connect_op = some none ∧
           w.stage.active_disconnect_op = some none)) :
    (stepCmd w (.runOp k b)).1.stage = w.stage := by
  obtain ⟨e, he⟩ :=
    cancel_raises (w := { w with next_op := w.next_op + 1 }) h
  rcases hk with rfl | rfl | rfl <;>
    simp [stepCmd, run_op, run_op_impl, he, complete_op, setOpError]

/-- Storing a credential never touches the two slots. -/
lemma set_credential_slots_unchanged (w : World) (b : Option PyErr) (t c : String) :
    (stepCmd w (.runOp (.setSasToken t) b)).1.stage.active_connect_op =
      w.stage.active_connect_op ∧
    (stepCmd w (.runOp (.setSasToken t) b)).1.stage.active_disconnect_op =
      w.stage.active_disconnect_op ∧
    (stepCmd w (.runOp (.setClientAuthenticationCertificate c) b)).1.stage.active_connect_op =
      w.stage.active_connect_op ∧
    (stepCmd w (.runOp (.setClientAuthenticationCertificate c) b)).1.stage.active_disconnect_op =
      w.stage.active_disconnect_op := by
  refine ⟨?_, ?_, ?_, ?_⟩ <;> simp [stepCmd, run_op, run_op_impl, complete_op]

/-- Publish, subscribe, unsubscribe, pass-through operations, incoming
messages and acks never touch the stage attribute record. -/
lemma nonslot_cmd_stage_unchanged (w : World) (b : Option PyErr)
    (t p : String) (j : Nat) :
    (stepCmd w (.runOp (.mqttPublish t p) b)).1.stage = w.stage ∧
    (stepCmd w (.runOp (.mqttSubscribe t) b)).1.stage = w.stage ∧
    (stepCmd w (.runOp (.mqttUnsubscribe t) b)).1.stage = w.stage ∧
    (stepCmd w (.runOp .otherOp b)).1.stage = w.stage ∧
    (stepCmd w (.mqttMessageReceived t p)).1.stage = w.stage ∧
    (stepCmd w (.ack j)).1.stage = w.stage := by
  refine ⟨?_, ?_, ?_, ?_, ?_, ?_⟩
  · rcases htr : w.stage.transport with _ | u
    · simp [stepCmd, run_op, run_op_impl, htr, complete_op, setOpError]
    · rcases b with _ | e <;>
        simp [stepCmd, run_op, run_op_impl, htr, complete_op, setOpError]
  · rcases htr : w.stage.transport with _ | u
    · simp [stepCmd, run_op, run_op_impl, htr, complete_op, setOpError]
    · rcases b with _ | e <;>
        simp [stepCmd, run_op, run_op_impl, htr, complete_op, setOpError]
  · rcases htr : w.stage.transport with _ | u
    · simp [stepCmd, run_op, run_op_impl, htr, complete_op, setOpError]
    · rcases b with _ | e <;>
        simp [stepCmd, run_op, run_op_impl, htr, complete_op, setOpError]
  · simp [stepCmd, run_op, run_op_impl, complete_op]
  · simp [stepCmd, handle_mqtt_message_received]
  · simp [stepCmd, handle_ack, complete_op]

/-- Phase invariant of reachable states: either the stage is fresh (no
transport, neither slot attribute exists) or it is configured (transport
exists, both slot attributes exist). -/
lemma stage_phases {w : World} (hr : Reachable w) :
    (w.stage.transport = none ∧ w.stage.active_connect_op = none ∧
      w.stage.active_disconnect_op = none) ∨
    (w.stage.transport = some () ∧ (∃ cv, w.stage.active_connect_op = some cv) ∧
      (∃ dv, w.stage.active_disconnect_op = some dv)) := by
  induction hr with
  | init => exact Or.inl ⟨rfl, rfl, rfl⟩
  | @step w c hr hall ih =>
    rcases ih with ⟨htr, hc, hd⟩ | ⟨htr, ⟨cv, hc⟩, ⟨dv, hd⟩⟩
    · -- fresh phase
      cases c with
      | runOp k b =>
        cases k with
        | setMQTTConnectionArgs hn un ci ca =>
          right
          refine ⟨?_, ⟨none, ?_⟩, ⟨none, ?_⟩⟩ <;>
            simp [stepCmd, run_op, run_op_impl, complete_op]
        | setSasToken t =>
          left
          refine ⟨?_, ?_, ?_⟩ <;>
            simp [stepCmd, run_op, run_op_impl, complete_op, htr, hc, hd]
        | setClientAuthenticationCertificate cert =>
          left
          refine ⟨?_, ?_, ?_⟩ <;>
            simp [stepCmd, run_op, run_op_impl, complete_op, htr, hc, hd]
        | connect =>
          left
          have hst : (stepCmd w (.runOp .connect b)).1.stage = w.stage :=
            connect_family_stage_unchanged b (Or.inl rfl) (by simp [hc])
          rw [hst]; exact ⟨htr, hc, hd⟩
        | reconnect =>
          left
          have hst : (stepCmd w (.runOp .reconnect b)).1.stage = w.stage :=
            connect_family_stage_unchanged b (Or.inr (Or.inl rfl)) (by simp [hc])
          rw [hst]; exact ⟨htr, hc, hd⟩
        | disconnect =>
          left
          have hst : (stepCmd w (.runOp .disconnect b)).1.stage = w.stage :=
            connect_family_stage_unchanged b (Or.inr (Or.inr rfl)) (by simp [hc])
          rw [hst]; exact ⟨htr, hc, hd⟩
        | mqttPublish t p =>
          left
          rw [(nonslot_cmd_stage_unchanged w b t p 0).1]; exact ⟨htr, hc, hd⟩
        | mqttSubscribe t =>
          left
          rw [(nonslot_cmd_stage_unchanged w b t "" 0).2.1]; exact ⟨htr, hc, hd⟩
        | mqttUnsubscribe t =>
          left
          rw [(nonslot_cmd_stage_unchanged w b t "" 0).2.2.1]; exact ⟨htr, hc, hd⟩
        | otherOp =>
          left
          rw [(nonslot_cmd_stage_unchanged w b "" "" 0).2.2.2.1]; exact ⟨htr, hc, hd⟩
      | mqttConnected => simp [allowedCmd, htr] at hall
      | mqttConnectionFailure cause => simp [allowedCmd, htr] at hall
      | mqttDisconnected cause => simp [allowedCmd, htr] at hall
      | mqttMessageReceived t p => simp [allowedCmd, htr] at hall
      | ack j =>
        left
        rw [(nonslot_cmd_stage_unchanged w none "" "" j).2.2.2.2.2]
        exact ⟨htr, hc, hd⟩
    · -- configured phase
      cases c with
      | runOp k b =>
        cases k with
        | setMQTTConnectionArgs hn un ci ca => simp [allowedCmd, htr] at hall
        | setSasToken t =>
          right
          refine ⟨?_, ⟨cv, ?_⟩, ⟨dv, ?_⟩⟩ <;>
            simp [stepCmd, run_op, run_op_impl, complete_op, htr, hc, hd]
        | setClientAuthenticationCertificate cert =>
          right
          refine ⟨?_, ⟨cv, ?_⟩, ⟨dv, ?_⟩⟩ <;>
            simp [stepCmd, run_op, run_op_impl, complete_op, htr, hc, hd]
        | connect =>
          by_cases hready : w.stage.active_connect_op = some none ∧
              w.stage.active_disconnect_op = some none
          · right
            rcases hready with ⟨hc0, hd0⟩
            rcases hs : w.stage.sas_token with _ | sv
            · refine ⟨?_, ⟨none, ?_⟩, ⟨none, ?_⟩⟩ <;>
                simp [stepCmd, run_op, run_op_impl,
                  cancel_active_connect_disconnect_ops, hc0, hd0, htr, hs,
                  complete_op, setOpError]
            · rcases hcc : w.stage.trusted_certificate_chain with _ | tv
              · refine ⟨?_, ⟨none, ?_⟩, ⟨none, ?_⟩⟩ <;>
                  simp [stepCmd, run_op, run_op_impl,
                    cancel_active_connect_disconnect_ops, hc0, hd0, htr, hs, hcc,
                    complete_op, setOpError]
              · rcases b with _ | e
                · refine ⟨?_, ⟨some w.next_op, ?_⟩, ⟨none, ?_⟩⟩ <;>
                    simp [stepCmd, run_op, run_op_impl,
                      cancel_active_connect_disconnect_ops, hc0, hd0, htr, hs, hcc,
                      complete_op, setOpError]
                · refine ⟨?_, ⟨none, ?_⟩, ⟨none, ?_⟩⟩ <;>
                    simp [stepCmd, run_op, run_op_impl,
                      cancel_active_connect_disconnect_ops, hc0, hd0, htr, hs, hcc,
                      complete_op, setOpError]
          · right
            rw [connect_family_stage_unchanged b (Or.inl rfl) hready]
            exact ⟨htr, ⟨cv, hc⟩, ⟨dv, hd⟩⟩
        | reconnect =>
          by_cases hready : w.stage.active_connect_op = some none ∧
              w.stage.active_disconnect_op = some none
          · right
            rcases hready with ⟨hc0, hd0⟩
            rcases hs : w.stage.sas_token with _ | sv
            · refine ⟨?_, ⟨none, ?_⟩, ⟨none, ?_⟩⟩ <;>
                simp [stepCmd, run_op, run_op_impl,
                  cancel_active_connect_disconnect_ops, hc0, hd0, htr, hs,
                  complete_op, setOpError]
            · rcases b with _ | e
              · refine ⟨?_, ⟨some w.next_op, ?_⟩, ⟨none, ?_⟩⟩ <;>
                  simp [stepCmd, run_op, run_op_impl,
                    cancel_active_connect_disconnect_ops, hc0, hd0, htr, hs,
                    complete_op, setOpError]
              · refine ⟨?_, ⟨none, ?_⟩, ⟨none, ?_⟩⟩ <;>
                  simp [stepCmd, run_op, run_op_impl,
                    cancel_active_connect_disconnect_ops, hc0, hd0, htr, hs,
                    complete_op, setOpError]
          · right
            rw [connect_family_stage_unchanged b (Or.inr (Or.inl rfl)) hready]
            exact ⟨htr, ⟨cv, hc⟩, ⟨dv, hd⟩⟩
        | disconnect =>
          by_cases hready : w.stage.active_connect_op = some none ∧
              w.stage.active_disconnect_op = some none
          · right
            rcases hready with ⟨hc0, hd0⟩
            rcases b with _ | e
            · refine ⟨?_, ⟨none, ?_⟩, ⟨some w.next_op, ?_⟩⟩ <;>
                simp [stepCmd, run_op, run_op_impl,
                  cancel_active_connect_disconnect_ops, hc0, hd0, htr,
                  complete_op, setOpError]
            · refine ⟨?_, ⟨none, ?_⟩, ⟨none, ?_⟩⟩ <;>
                simp [stepCmd, run_op, run_op_impl,
                  cancel_active_connect_disconnect_ops, hc0, hd0, htr,
                  complete_op, setOpError]
          · right
            rw [connect_family_stage_unchanged b (Or.inr (Or.inr rfl)) hready]
            exact ⟨htr, ⟨cv, hc⟩, ⟨dv, hd⟩⟩
        | mqttPublish t p =>
          right
          rw [(nonslot_cmd_stage_unchanged w b t p 0).1]
          exact ⟨htr, ⟨cv, hc⟩, ⟨dv, hd⟩⟩
        | mqttSubscribe t =>
          right
          rw [(nonslot_cmd_stage_unchanged w b t "" 0).2.1]
          exact ⟨htr, ⟨cv, hc⟩, ⟨dv, hd⟩⟩
        | mqttUnsubscribe t =>
          right
          rw [(nonslot_cmd_stage_unchanged w b t "" 0).2.2.1]
          exact ⟨htr, ⟨cv, hc⟩, ⟨dv, hd⟩⟩
        | otherOp =>
          right
          rw [(nonslot_cmd_stage_unchanged w b "" "" 0).2.2.2.1]
          exact ⟨htr, ⟨cv, hc⟩, ⟨dv, hd⟩⟩
      | mqttConnected =>
        right
        rcases hc' : w.stage.active_connect_op with _ | (_ | j)
        · rw [hc] at hc'; exact Option.noConfusion hc'
        · refine ⟨?_, ⟨none, ?_⟩, ⟨dv, ?_⟩⟩ <;>
            simp [stepCmd, handle_mqtt_connected, hc', htr, hd, complete_op]
        · refine ⟨?_, ⟨none, ?_⟩, ⟨dv, ?_⟩⟩ <;>
            simp [stepCmd, handle_mqtt_connected, hc', htr, hd, complete_op]
      | mqttConnectionFailure cause =>
        right
        rcases hc' : w.stage.active_connect_op with _ | (_ | j)
        · rw [hc] at hc'; exact Option.noConfusion hc'
        · refine ⟨?_, ⟨none, ?_⟩, ⟨dv, ?_⟩⟩ <;>
            simp [stepCmd, handle_mqtt_connection_failure, hc', htr, hd,
              complete_op, setOpError]
        · refine ⟨?_, ⟨none, ?_⟩, ⟨dv, ?_⟩⟩ <;>
            simp [stepCmd, handle_mqtt_connection_failure, hc', htr, hd,
              complete_op, setOpError]
      | mqttDisconnected cause =>
        right
        rcases hd' : w.stage.active_disconnect_op with _ | (_ | j)
        · rw [hd] at hd'; exact Option.noConfusion hd'
        · refine ⟨?_, ⟨cv, ?_⟩, ⟨none, ?_⟩⟩ <;>
            simp [stepCmd, handle_mqtt_disconnected, hd', htr, hc,
              complete_op, setOpError]
        · refine ⟨?_, ⟨cv, ?_⟩, ⟨none, ?_⟩⟩ <;>
            simp [stepCmd, handle_mqtt_disconnected, hd', htr, hc,
              complete_op, setOpError]
      | mqttMessageReceived t p =>
        right
        rw [(nonslot_cmd_stage_unchanged w none t p 0).2.2.2.2.1]
        exact ⟨htr, ⟨cv, hc⟩, ⟨dv, hd⟩⟩
      | ack j =>
        right
        rw [(nonslot_cmd_stage_unchanged w none "" "" j).2.2.2.2.2]
        exact ⟨htr, ⟨cv, hc⟩, ⟨dv, hd⟩⟩

/-- C3: each active slot is a single Option-valued reference (at most one
operation by construction, as in the source's single attribute), and in
every reachable state, for every allowed next entry into the stage, a slot
that holds an operation stops holding it only if that operation has been
completed by the end of that entry's handler: no operation handler and no
session-callback handler empties a slot while leaving its operation
uncompleted. (With the source's list-add defect, the supersession path
raises before clearing, so every clear that actually occurs coincides
with a completion.) -/
theorem C3_slot_discipline (w : World) (hr : Reachable w) (c : Cmd)
    (hall : allowedCmd w c = true) (i : Nat) :
    (w.stage.active_connect_op = some (some i) →
      (stepCmd w c).1.stage.active_connect_op ≠ some (some i) →
      ((stepCmd w c).1.ops i).completed = true) ∧
    (w.stage.active_disconnect_op = some (some i) →
      (stepCmd w c).1.stage.active_disconnect_op ≠ some (some i) →
      ((stepCmd w c).1.ops i).completed = true) := by
  cases c with
  | runOp k b =>
    cases k with
    | setMQTTConnectionArgs hn un ci ca =>
      constructor <;> intro hful hne
      · rcases stage_phases hr with ⟨htr, hc, hd⟩ | ⟨htr, _, _⟩
        · rw [hc] at hful; exact Option.noConfusion hful
        · simp [allowedCmd, htr] at hall
      · rcases stage_phases hr with ⟨htr, hc, hd⟩ | ⟨htr, _, _⟩
        · rw [hd] at hful; exact Option.noConfusion hful
        · simp [allowedCmd, htr] at hall
    | setSasToken t =>
      constructor <;> intro hful hne
      · exact absurd ((set_credential_slots_unchanged w b t "").1.trans hful) hne
      · exact absurd ((set_credential_slots_unchanged w b t "").2.1.trans hful) hne
    | setClientAuthenticationCertificate cert =>
      constructor <;> intro hful hne
      · exact absurd
          ((set_credential_slots_unchanged w b "" cert).2.2.1.trans hful) hne
      · exact absurd
          ((set_credential_slots_unchanged w b "" cert).2.2.2.trans hful) hne
    | connect =>
      constructor <;> intro hful hne
      · have hst := connect_family_stage_unchanged (w := w) b (Or.inl rfl)
          (by simp [hful])
        exact absurd (by rw [hst]; exact hful) hne
      · have hst := connect_family_stage_unchanged (w := w) b (Or.inl rfl)
          (by simp [hful])
        exact absurd (by rw [hst]; exact hful) hne
    | reconnect =>
      constructor <;> intro hful hne
      · have hst := connect_family_stage_unchanged (w := w) b (Or.inr (Or.inl rfl))
          (by simp [hful])
        exact absurd (by rw [hst]; exact hful) hne
      · have hst := connect_family_stage_unchanged (w := w) b (Or.inr (Or.inl rfl))
          (by simp [hful])
        exact absurd (by rw [hst]; exact hful) hne
    | disconnect =>
      constructor <;> intro hful hne
      · have hst := connect_family_stage_unchanged (w := w) b (Or.inr (Or.inr rfl))
          (by simp [hful])
        exact absurd (by rw [hst]; exact hful) hne
      · have hst := connect_family_stage_unchanged (w := w) b (Or.inr (Or.inr rfl))
          (by simp [hful])
        exact absurd (by rw [hst]; exact hful) hne
    | mqttPublish t p =>
      constructor <;> intro hful hne <;>
        exact absurd
          (by rw [(nonslot_cmd_stage_unchanged w b t p 0).1]; exact hful) hne
    | mqttSubscribe t =>
      constructor <;> intro hful hne <;>
        exact absurd
          (by rw [(nonslot_cmd_stage_unchanged w b t "" 0).2.1]; exact hful) hne
    | mqttUnsubscribe t =>
      constructor <;> intro hful hne <;>
        exact absurd
          (by rw [(nonslot_cmd_stage_unchanged w b t "" 0).2.2.1]; exact hful) hne
    | otherOp =>
      constructor <;> intro hful hne <;>
        exact absurd
          (by rw [(nonslot_cmd_stage_unchanged w b "" "" 0).2.2.2.1]; exact hful) hne
  | mqttConnected =>
    constructor <;> intro hful hne
    · simp [stepCmd, handle_mqtt_connected, hful, complete_op]
    · rcases hc' : w.stage.active_connect_op with _ | (_ | j) <;>
        simp [stepCmd, handle_mqtt_connected, hc', complete_op] at hne ⊢ <;>
        exact absurd hful hne
  | mqttConnectionFailure cause =>
    constructor <;> intro hful hne
    · simp [stepCmd, handle_mqtt_connection_failure, hful, complete_op, setOpError]
    · rcases hc' : w.stage.active_connect_op with _ | (_ | j) <;>
        simp [stepCmd, handle_mqtt_connection_failure, hc', complete_op,
          setOpError] at hne ⊢ <;>
        exact absurd hful hne
  | mqttDisconnected cause =>
    constructor <;> intro hful hne
    · rcases hd' : w.stage.active_disconnect_op with _ | (_ | j) <;>
        simp [stepCmd, handle_mqtt_disconnected, hd', complete_op,
          setOpError] at hne ⊢ <;>
        exact absurd hful hne
    · simp [stepCmd, handle_mqtt_disconnected, hful, complete_op, setOpError]
  | mqttMessageReceived t p =>
    constructor <;> intro hful hne <;>
      exact absurd
        (by rw [(nonslot_cmd_stage_unchanged w none t p 0).2.2.2.2.1]; exact hful) hne
  | ack j =>
    constructor <;> intro hful hne <;>
      exact absurd
        (by rw [(nonslot_cmd_stage_unchanged w none "" "" j).2.2.2.2.2]; exact hful) hne

/-- C3 witness: on the reachable state with ConnectOperation 1 active, the
session's connected callback empties the slot and has indeed completed
operation 1. -/
theorem C3_witness :
    ((stepCmd pendingConnectWorld .mqttConnected).1.ops 1).completed = true := by
  have h := C3_slot_discipline pendingConnectWorld
    (Reachable.step (.runOp .connect none)
      (Reachable.step (.runOp (.setMQTTConnectionArgs "h" "u" "c" none) none)
        Reachable.init (by decide))
      (by decide))
    .mqttConnected (by decide) 1
  exact h.1 (by decide) (by decide)

end AzureIoT
